import Mathlib

/-!
Verification of the Mergington High School activities API
(`src/app.py`, `src/models.py`).

The persistent store (SQLite via SQLAlchemy) is embedded shallowly:
* `Activity` mirrors the `activities` table row (the generated numeric
  `id` is elided: `name` is declared `unique` and is the only key the
  API ever uses to address an activity);
* a `Store` holds the activity rows, the participant rows (each row is
  just its primary-key `email`), and the `activity_participants`
  association table as a list of (activity name, email) pairs;
* each endpoint of `app.py` becomes a pure function from a `Store` and
  the request parameters to a `Response` paired with the post-state
  (a raised `HTTPException` aborts before `db.commit()`, so the
  pre-state is returned unchanged on the error paths).
-/

/-- A row of the `activities` table (`models.py`, class `Activity`). -/
structure Activity where
  name : String
  description : String
  schedule : String
  max_participants : Nat
deriving DecidableEq, Repr

/-- The database state: `activities` rows, `participants` rows (primary
key `email` only), and the `activity_participants` association table,
with activities addressed by their unique `name`. -/
structure Store where
  activities : List Activity
  participants : List String
  assoc : List (String × String)
deriving DecidableEq, Repr

/-- The outcome of a request: a JSON `{"message": ...}` reply, or an
`HTTPException(status_code, detail)`. -/
inductive Response where
  | ok (message : String)
  | error (status : Nat) (detail : String)
deriving DecidableEq, Repr

/-- `db.query(Activity).filter(Activity.name == activity_name).first()`. -/
def findActivity (s : Store) (name : String) : Option Activity :=
  s.activities.find? (fun a => a.name == name)

/-- `POST /activities/{activity_name}/signup` (`app.py`,
`signup_for_activity`): 404 when the activity is unknown; 400 when the
participant row exists and is already associated to the activity;
otherwise create the participant row if absent, append the association,
and commit. -/
def signup_for_activity (s : Store) (activity_name email : String) :
    Response × Store :=
  match findActivity s activity_name with
  | none => (Response.error 404 "Activity not found", s)
  | some activity =>
    if email ∈ s.participants ∧ (activity.name, email) ∈ s.assoc then
      (Response.error 400 "Student is already signed up", s)
    else
      (Response.ok ("Signed up " ++ email ++ " for " ++ activity_name),
        { s with
          participants :=
            if email ∈ s.participants then s.participants
            else s.participants ++ [email],
          assoc := s.assoc ++ [(activity.name, email)] })

/-- `DELETE /activities/{activity_name}/unregister` (`app.py`,
`unregister_from_activity`): 404 when the activity is unknown; 400 when
the participant row is absent or not associated to the activity;
otherwise delete the association rows for the pair and commit. -/
def unregister_from_activity (s : Store) (activity_name email : String) :
    Response × Store :=
  match findActivity s activity_name with
  | none => (Response.error 404 "Activity not found", s)
  | some activity =>
    if email ∉ s.participants ∨ (activity.name, email) ∉ s.assoc then
      (Response.error 400 "Student is not signed up for this activity", s)
    else
      (Response.ok ("Unregistered " ++ email ++ " from " ++ activity_name),
        { s with
          assoc := s.assoc.filter (fun p => p ≠ (activity.name, email)) })

/-- The per-activity payload returned by `GET /activities`. -/
structure ActivityDetails where
  description : String
  schedule : String
  max_participants : Nat
  participants : List String
deriving DecidableEq, Repr

/-- `GET /activities` (`app.py`, `get_activities`): the name → details
mapping, one entry per activity row, each listing the emails associated
to that activity (`activity.participants` navigates the association
table). -/
def get_activities (s : Store) : List (String × ActivityDetails) :=
  s.activities.map (fun a =>
    (a.name,
      { description := a.description
        schedule := a.schedule
        max_participants := a.max_participants
        participants := (s.assoc.filter (fun p => p.1 = a.name)).map
          (fun p => p.2) }))

/-- The seeded "Chess Club" activity row (`init_sample_data`). -/
def chessClub : Activity :=
  { name := "Chess Club"
    description := "Learn strategies and compete in chess tournaments"
    schedule := "Fridays, 3:30 PM - 5:00 PM"
    max_participants := 12 }

/-- The seed data inserted by `init_sample_data` (`app.py`) into an
empty database. -/
def initStore : Store :=
  { activities :=
      [ chessClub,
        { name := "Programming Class"
          description := "Learn programming fundamentals and build software projects"
          schedule := "Tuesdays and Thursdays, 3:30 PM - 4:30 PM"
          max_participants := 20 },
        { name := "Gym Class"
          description := "Physical education and sports activities"
          schedule := "Mondays, Wednesdays, Fridays, 2:00 PM - 3:00 PM"
          max_participants := 30 } ]
    participants :=
      [ "michael@mergington.edu", "daniel@mergington.edu",
        "emma@mergington.edu", "sophia@mergington.edu",
        "john@mergington.edu", "olivia@mergington.edu" ]
    assoc :=
      [ ("Chess Club", "michael@mergington.edu"),
        ("Chess Club", "daniel@mergington.edu"),
        ("Programming Class", "emma@mergington.edu"),
        ("Programming Class", "sophia@mergington.edu"),
        ("Gym Class", "john@mergington.edu"),
        ("Gym Class", "olivia@mergington.edu") ] }

/-- A mutating API request. -/
inductive Request where
  | signup (activity email : String)
  | unregister (activity email : String)
deriving DecidableEq, Repr

/-- The state transition performed by one request (the response is
discarded). -/
def applyRequest (s : Store) (r : Request) : Store :=
  match r with
  | .signup a e => (signup_for_activity s a e).2
  | .unregister a e => (unregister_from_activity s a e).2

/-- The state after a sequence of requests. -/
def runRequests (s : Store) (rs : List Request) : Store :=
  rs.foldl applyRequest s

/-- A store reachable from the seeded initial state by some sequence of
signup and unregister requests. -/
def Reachable (s : Store) : Prop :=
  ∃ rs : List Request, s = runRequests initStore rs

/-- The store invariants maintained by the API: the association table
has no duplicate rows, and every association refers to an existing
participant row (the `email` foreign key). -/
def StoreInv (s : Store) : Prop :=
  s.assoc.Nodup ∧ ∀ p ∈ s.assoc, p.2 ∈ s.participants

/-- A store whose single activity is already over its advisory
`max_participants` capacity (2 enrolled, capacity 1). -/
def overCapStore : Store :=
  { activities :=
      [ { name := "Chess Club"
          description := "Learn strategies and compete in chess tournaments"
          schedule := "Fridays, 3:30 PM - 5:00 PM"
          max_participants := 1 } ]
    participants := ["a@mergington.edu", "b@mergington.edu"]
    assoc :=
      [ ("Chess Club", "a@mergington.edu"),
        ("Chess Club", "b@mergington.edu") ] }

/-! ### Helper lemmas -/

theorem findActivity_mem_name {s : Store} {n : String} {act : Activity}
    (h : findActivity s n = some act) :
    act ∈ s.activities ∧ act.name = n := by
  refine ⟨List.mem_of_find?_eq_some h, ?_⟩
  have := List.find?_some h
  simpa using this

theorem findActivity_eq_none {s : Store} {n : String}
    (h : ∀ act ∈ s.activities, act.name ≠ n) :
    findActivity s n = none := by
  rw [findActivity, List.find?_eq_none]
  intro a ha
  simpa using h a ha

theorem signup_not_found {s : Store} {A E : String}
    (h : findActivity s A = none) :
    signup_for_activity s A E = (Response.error 404 "Activity not found", s) := by
  rw [signup_for_activity, h]

theorem unregister_not_found {s : Store} {A E : String}
    (h : findActivity s A = none) :
    unregister_from_activity s A E =
      (Response.error 404 "Activity not found", s) := by
  rw [unregister_from_activity, h]

theorem signup_success {s : Store} {A E : String} {act : Activity}
    (hA : findActivity s A = some act)
    (hc : ¬(E ∈ s.participants ∧ (A, E) ∈ s.assoc)) :
    signup_for_activity s A E =
      (Response.ok ("Signed up " ++ E ++ " for " ++ A),
        { s with
          participants :=
            if E ∈ s.participants then s.participants
            else s.participants ++ [E],
          assoc := s.assoc ++ [(A, E)] }) := by
  have hn := (findActivity_mem_name hA).2
  rw [signup_for_activity, hA]
  simp only [hn]
  rw [if_neg hc]

theorem signup_conflict {s : Store} {A E : String} {act : Activity}
    (hA : findActivity s A = some act)
    (hP : E ∈ s.participants) (hAs : (A, E) ∈ s.assoc) :
    signup_for_activity s A E =
      (Response.error 400 "Student is already signed up", s) := by
  have hn := (findActivity_mem_name hA).2
  rw [signup_for_activity, hA]
  simp only [hn]
  rw [if_pos ⟨hP, hAs⟩]

theorem unregister_success {s : Store} {A E : String} {act : Activity}
    (hA : findActivity s A = some act)
    (hP : E ∈ s.participants) (hAs : (A, E) ∈ s.assoc) :
    unregister_from_activity s A E =
      (Response.ok ("Unregistered " ++ E ++ " from " ++ A),
        { s with assoc := s.assoc.filter (fun p => p ≠ (A, E)) }) := by
  have hn := (findActivity_mem_name hA).2
  rw [unregister_from_activity, hA]
  simp only [hn]
  rw [if_neg (by push_neg; exact ⟨hP, hAs⟩)]

theorem unregister_missing {s : Store} {A E : String} {act : Activity}
    (hA : findActivity s A = some act)
    (h : E ∉ s.participants ∨ (A, E) ∉ s.assoc) :
    unregister_from_activity s A E =
      (Response.error 400 "Student is not signed up for this activity", s) := by
  have hn := (findActivity_mem_name hA).2
  rw [unregister_from_activity, hA]
  simp only [hn]
  rw [if_pos h]

theorem signup_activities (s : Store) (A E : String) :
    (signup_for_activity s A E).2.activities = s.activities := by
  cases hA : findActivity s A with
  | none => rw [signup_not_found hA]
  | some act =>
    by_cases hc : E ∈ s.participants ∧ (A, E) ∈ s.assoc
    · rw [signup_conflict hA hc.1 hc.2]
    · rw [signup_success hA hc]

theorem unregister_activities (s : Store) (A E : String) :
    (unregister_from_activity s A E).2.activities = s.activities := by
  cases hA : findActivity s A with
  | none => rw [unregister_not_found hA]
  | some act =>
    by_cases hc : E ∈ s.participants ∧ (A, E) ∈ s.assoc
    · rw [unregister_success hA hc.1 hc.2]
    · rw [unregister_missing hA (not_and_or.mp hc)]

theorem unregister_participants (s : Store) (A E : String) :
    (unregister_from_activity s A E).2.participants = s.participants := by
  cases hA : findActivity s A with
  | none => rw [unregister_not_found hA]
  | some act =>
    by_cases hc : E ∈ s.participants ∧ (A, E) ∈ s.assoc
    · rw [unregister_success hA hc.1 hc.2]
    · rw [unregister_missing hA (not_and_or.mp hc)]

theorem findActivity_of_activities_eq {s s' : Store} {n : String}
    (h : s'.activities = s.activities) :
    findActivity s' n = findActivity s n := by
  rw [findActivity, findActivity, h]

theorem signup_conflict_fst {s : Store} {A E : String} {act : Activity}
    (hA : findActivity s A = some act)
    (hP : E ∈ s.participants) (hAs : (A, E) ∈ s.assoc) :
    (signup_for_activity s A E).1 =
      Response.error 400 "Student is already signed up" := by
  rw [signup_conflict hA hP hAs]

/-! ### Claims -/

/-- C3: if no activity named `A` exists, both signup and unregister for
any email `E` fail with 404 "Activity not found" and leave the store
unchanged. -/
theorem spec_C3 (s : Store) (A E : String)
    (h : ∀ act ∈ s.activities, act.name ≠ A) :
    signup_for_activity s A E = (Response.error 404 "Activity not found", s) ∧
    unregister_from_activity s A E =
      (Response.error 404 "Activity not found", s) :=
  ⟨signup_not_found (findActivity_eq_none h),
   unregister_not_found (findActivity_eq_none h)⟩

/-- Witness for C3: "Robotics Club" is not a seeded activity, so signup
and unregister for it fail with 404. -/
theorem spec_C3_witness :
    signup_for_activity initStore "Robotics Club" "x@mergington.edu" =
      (Response.error 404 "Activity not found", initStore) ∧
    unregister_from_activity initStore "Robotics Club" "x@mergington.edu" =
      (Response.error 404 "Activity not found", initStore) :=
  spec_C3 initStore "Robotics Club" "x@mergington.edu" (by decide)

/-- C1: when an activity named `A` exists and `(A, E)` is not in the
association table, signup succeeds: it returns "Signed up E for A",
ensures a participant row for `E` exists, adds the `(A, E)` association,
and a subsequent `GET /activities` shows `E` in `A`'s participant
list. -/
theorem spec_C1 (s : Store) (A E : String) (act : Activity)
    (hA : findActivity s A = some act) (hE : (A, E) ∉ s.assoc) :
    (signup_for_activity s A E).1 =
      Response.ok ("Signed up " ++ E ++ " for " ++ A) ∧
    E ∈ (signup_for_activity s A E).2.participants ∧
    (A, E) ∈ (signup_for_activity s A E).2.assoc ∧
    ∃ d : ActivityDetails,
      (A, d) ∈ get_activities (signup_for_activity s A E).2 ∧
      E ∈ d.participants := by
  have hn := (findActivity_mem_name hA).2
  have hmem := (findActivity_mem_name hA).1
  rw [signup_success hA (fun h => hE h.2)]
  refine ⟨rfl, ?_, by simp, ?_⟩
  · by_cases hp : E ∈ s.participants <;> simp [hp]
  · refine ⟨{ description := act.description
              schedule := act.schedule
              max_participants := act.max_participants
              participants :=
                ((s.assoc ++ [(A, E)]).filter
                  (fun p => p.1 = act.name)).map (fun p => p.2) }, ?_, ?_⟩
    · rw [get_activities]
      exact List.mem_map.mpr ⟨act, hmem, by rw [hn]⟩
    · exact List.mem_map.mpr ⟨(A, E),
        List.mem_filter.mpr ⟨List.mem_append_right _ (by simp), by simp [hn]⟩,
        rfl⟩

/-- Witness for C1: signing `new@mergington.edu` up for the seeded
"Chess Club" succeeds and the email then appears in its participant
list. -/
theorem spec_C1_witness :
    (signup_for_activity initStore "Chess Club" "new@mergington.edu").1 =
      Response.ok "Signed up new@mergington.edu for Chess Club" ∧
    ("Chess Club", "new@mergington.edu") ∈
      (signup_for_activity initStore "Chess Club" "new@mergington.edu").2.assoc ∧
    ∃ d : ActivityDetails,
      ("Chess Club", d) ∈
        get_activities
          (signup_for_activity initStore "Chess Club" "new@mergington.edu").2 ∧
      "new@mergington.edu" ∈ d.participants := by
  have h := spec_C1 initStore "Chess Club" "new@mergington.edu" chessClub
    (by decide) (by decide)
  exact ⟨h.1.trans (by decide), h.2.2.1, h.2.2.2⟩

/-- C2: when activity `A` exists, a signup for a participant row `E`
already associated to `A` fails with 400 "Student is already signed up"
and leaves the store unchanged; and of two consecutive signups for an
`(A, E)` not yet associated, the first succeeds and the second fails
with that condition. -/
theorem spec_C2 (s : Store) (A E : String) (act : Activity)
    (hA : findActivity s A = some act) :
    (E ∈ s.participants → (A, E) ∈ s.assoc →
      signup_for_activity s A E =
        (Response.error 400 "Student is already signed up", s)) ∧
    ((A, E) ∉ s.assoc →
      (signup_for_activity s A E).1 =
        Response.ok ("Signed up " ++ E ++ " for " ++ A) ∧
      (signup_for_activity (signup_for_activity s A E).2 A E).1 =
        Response.error 400 "Student is already signed up") := by
  refine ⟨fun hP hAs => signup_conflict hA hP hAs, fun hE => ?_⟩
  have e1 := signup_success hA (fun h => hE h.2)
  rw [e1]
  refine ⟨rfl, ?_⟩
  exact signup_conflict_fst hA
    (by by_cases hp : E ∈ s.participants <;> simp [hp])
    (by simp)

/-- Witness for C2: `michael@mergington.edu` is already in "Chess Club",
so signing up again fails with 400; for `new@mergington.edu` the first
signup succeeds and the immediate second one fails with 400. -/
theorem spec_C2_witness :
    signup_for_activity initStore "Chess Club" "michael@mergington.edu" =
      (Response.error 400 "Student is already signed up", initStore) ∧
    (signup_for_activity initStore "Chess Club" "new@mergington.edu").1 =
      Response.ok "Signed up new@mergington.edu for Chess Club" ∧
    (signup_for_activity
        (signup_for_activity initStore "Chess Club" "new@mergington.edu").2
        "Chess Club" "new@mergington.edu").1 =
      Response.error 400 "Student is already signed up" := by
  have h1 := spec_C2 initStore "Chess Club" "michael@mergington.edu" chessClub
    (by decide)
  have h2 := spec_C2 initStore "Chess Club" "new@mergington.edu" chessClub
    (by decide)
  have h2' := h2.2 (by decide)
  exact ⟨h1.1 (by decide) (by decide), h2'.1.trans (by decide), h2'.2⟩

/-- C7: signup performs no capacity check — whenever activity `A` exists
and `(A, E)` is not associated, signup succeeds, with no hypothesis on
how `A`'s enrollment compares to `max_participants` (the witness
applies this to a store already over capacity). -/
theorem spec_C7 (s : Store) (A E : String) (act : Activity)
    (hA : findActivity s A = some act) (hE : (A, E) ∉ s.assoc) :
    (signup_for_activity s A E).1 =
      Response.ok ("Signed up " ++ E ++ " for " ++ A) := by
  rw [signup_success hA (fun h => hE h.2)]

/-- Witness for C7: `overCapStore`'s only activity has capacity 1 and 2
enrolled participants, yet a third signup still succeeds. -/
theorem spec_C7_witness :
    ((overCapStore.assoc.filter (fun p => p.1 = "Chess Club")).length = 2 ∧
      ∀ act ∈ overCapStore.activities, act.max_participants = 1) ∧
    (signup_for_activity overCapStore "Chess Club" "c@mergington.edu").1 =
      Response.ok "Signed up c@mergington.edu for Chess Club" :=
  ⟨by decide,
   (spec_C7 overCapStore "Chess Club" "c@mergington.edu"
      { name := "Chess Club"
        description := "Learn strategies and compete in chess tournaments"
        schedule := "Fridays, 3:30 PM - 5:00 PM"
        max_participants := 1 }
      (by decide) (by decide)).trans (by decide)⟩

/-- C4: when activity `A` exists, unregister fails with 400 "Student is
not signed up for this activity" exactly when the participant row `E`
is absent or the `(A, E)` association does not exist; and immediately
repeating a successful unregister fails with that condition. -/
theorem spec_C4 (s : Store) (A E : String) (act : Activity)
    (hA : findActivity s A = some act) :
    ((unregister_from_activity s A E).1 =
        Response.error 400 "Student is not signed up for this activity" ↔
      (E ∉ s.participants ∨ (A, E) ∉ s.assoc)) ∧
    (E ∈ s.participants → (A, E) ∈ s.assoc →
      (unregister_from_activity (unregister_from_activity s A E).2 A E).1 =
        Response.error 400 "Student is not signed up for this activity") := by
  constructor
  · constructor
    · intro h
      by_contra hc
      push_neg at hc
      rw [unregister_success hA hc.1 hc.2] at h
      simp at h
    · intro h
      rw [unregister_missing hA h]
  · intro hP hAs
    have hA1 : findActivity (unregister_from_activity s A E).2 A = some act := by
      rw [findActivity_of_activities_eq (unregister_activities s A E)]
      exact hA
    have hAs1 : (A, E) ∉ (unregister_from_activity s A E).2.assoc := by
      rw [unregister_success hA hP hAs]
      simp
    rw [unregister_missing hA1 (Or.inr hAs1)]

/-- Witness for C4: unregistering an email with no participant row
fails with 400, and repeating the unregister of `michael@mergington.edu`
from "Chess Club" right after a successful one fails with 400. -/
theorem spec_C4_witness :
    (unregister_from_activity initStore "Chess Club"
        "nobody@mergington.edu").1 =
      Response.error 400 "Student is not signed up for this activity" ∧
    (unregister_from_activity
        (unregister_from_activity initStore "Chess Club"
          "michael@mergington.edu").2
        "Chess Club" "michael@mergington.edu").1 =
      Response.error 400 "Student is not signed up for this activity" := by
  have h1 := spec_C4 initStore "Chess Club" "nobody@mergington.edu" chessClub
    (by decide)
  have h2 := spec_C4 initStore "Chess Club" "michael@mergington.edu" chessClub
    (by decide)
  exact ⟨h1.1.mpr (by decide), h2.2 (by decide) (by decide)⟩

/-- C5: when activity `A` exists and the `(A, E)` association exists
(with its participant row, as the email foreign key guarantees),
unregister removes only the association: `E` no longer appears in `A`'s
participant list in `GET /activities`, while the participant row for
`E` and the activity row for `A` both still exist. -/
theorem spec_C5 (s : Store) (A E : String) (act : Activity)
    (hA : findActivity s A = some act)
    (hP : E ∈ s.participants) (hAs : (A, E) ∈ s.assoc) :
    (unregister_from_activity s A E).1 =
      Response.ok ("Unregistered " ++ E ++ " from " ++ A) ∧
    (A, E) ∉ (unregister_from_activity s A E).2.assoc ∧
    (∀ d : ActivityDetails,
      (A, d) ∈ get_activities (unregister_from_activity s A E).2 →
        E ∉ d.participants) ∧
    E ∈ (unregister_from_activity s A E).2.participants ∧
    act ∈ (unregister_from_activity s A E).2.activities := by
  have hmem := (findActivity_mem_name hA).1
  rw [unregister_success hA hP hAs]
  refine ⟨rfl, by simp, ?_, hP, hmem⟩
  intro d hd hEd
  rw [get_activities] at hd
  obtain ⟨a, ha, hfa⟩ := List.mem_map.mp hd
  rw [Prod.mk.injEq] at hfa
  obtain ⟨hname, hdet⟩ := hfa
  rw [← hdet] at hEd
  obtain ⟨p, hp, hpe⟩ := List.mem_map.mp hEd
  have hp1 := List.mem_filter.mp hp
  have hpA : p.1 = A := by
    have := hp1.2
    simp only [decide_eq_true_eq] at this
    rw [this, hname]
  have hpmem := List.mem_filter.mp hp1.1
  have hne : p ≠ (A, E) := by simpa using hpmem.2
  apply hne
  obtain ⟨p1, p2⟩ := p
  simp only [Prod.mk.injEq]
  exact ⟨hpA, hpe⟩

/-- Witness for C5: unregistering `michael@mergington.edu` from the
seeded "Chess Club" removes the association but keeps the participant
row and the activity row. -/
theorem spec_C5_witness :
    (unregister_from_activity initStore "Chess Club"
        "michael@mergington.edu").1 =
      Response.ok "Unregistered michael@mergington.edu from Chess Club" ∧
    ("Chess Club", "michael@mergington.edu") ∉
      (unregister_from_activity initStore "Chess Club"
        "michael@mergington.edu").2.assoc ∧
    "michael@mergington.edu" ∈
      (unregister_from_activity initStore "Chess Club"
        "michael@mergington.edu").2.participants ∧
    chessClub ∈
      (unregister_from_activity initStore "Chess Club"
        "michael@mergington.edu").2.activities := by
  have h := spec_C5 initStore "Chess Club" "michael@mergington.edu" chessClub
    (by decide) (by decide) (by decide)
  exact ⟨h.1.trans (by decide), h.2.1, h.2.2.2.1, h.2.2.2.2⟩

/-- C6: when activity `A` exists and `(A, E)` is not associated, the
sequence signup; unregister; signup succeeds at every step and ends
with `(A, E)` associated again — unregistering causes no permanent
exclusion. -/
theorem spec_C6 (s : Store) (A E : String) (act : Activity)
    (hA : findActivity s A = some act) (hE : (A, E) ∉ s.assoc) :
    (signup_for_activity s A E).1 =
      Response.ok ("Signed up " ++ E ++ " for " ++ A) ∧
    (unregister_from_activity (signup_for_activity s A E).2 A E).1 =
      Response.ok ("Unregistered " ++ E ++ " from " ++ A) ∧
    (signup_for_activity
        (unregister_from_activity (signup_for_activity s A E).2 A E).2
        A E).1 =
      Response.ok ("Signed up " ++ E ++ " for " ++ A) ∧
    (A, E) ∈ (signup_for_activity
        (unregister_from_activity (signup_for_activity s A E).2 A E).2
        A E).2.assoc := by
  have e1 := signup_success hA (fun h => hE h.2)
  have hA1 : findActivity (signup_for_activity s A E).2 A = some act := by
    rw [findActivity_of_activities_eq (signup_activities s A E)]
    exact hA
  have hP1 : E ∈ (signup_for_activity s A E).2.participants := by
    rw [e1]
    by_cases hp : E ∈ s.participants <;> simp [hp]
  have hAs1 : (A, E) ∈ (signup_for_activity s A E).2.assoc := by
    rw [e1]; simp
  have e2 := unregister_success hA1 hP1 hAs1
  have hA2 : findActivity
      (unregister_from_activity (signup_for_activity s A E).2 A E).2 A =
        some act := by
    rw [findActivity_of_activities_eq (unregister_activities _ A E)]
    exact hA1
  have hAs2 : (A, E) ∉
      (unregister_from_activity (signup_for_activity s A E).2 A E).2.assoc := by
    rw [e2]; simp
  have e3 := signup_success hA2 (fun h => hAs2 h.2)
  refine ⟨by rw [e1], by rw [e2], by rw [e3], by rw [e3]; simp⟩

/-- Witness for C6: signup, unregister, signup of `new@mergington.edu`
for the seeded "Chess Club" succeed in sequence and leave the email
enrolled. -/
theorem spec_C6_witness :
    (signup_for_activity initStore "Chess Club" "new@mergington.edu").1 =
      Response.ok "Signed up new@mergington.edu for Chess Club" ∧
    (unregister_from_activity
        (signup_for_activity initStore "Chess Club" "new@mergington.edu").2
        "Chess Club" "new@mergington.edu").1 =
      Response.ok "Unregistered new@mergington.edu from Chess Club" ∧
    (signup_for_activity
        (unregister_from_activity
          (signup_for_activity initStore "Chess Club" "new@mergington.edu").2
          "Chess Club" "new@mergington.edu").2
        "Chess Club" "new@mergington.edu").1 =
      Response.ok "Signed up new@mergington.edu for Chess Club" ∧
    ("Chess Club", "new@mergington.edu") ∈
      (signup_for_activity
        (unregister_from_activity
          (signup_for_activity initStore "Chess Club" "new@mergington.edu").2
          "Chess Club" "new@mergington.edu").2
        "Chess Club" "new@mergington.edu").2.assoc := by
  have h := spec_C6 initStore "Chess Club" "new@mergington.edu" chessClub
    (by decide) (by decide)
  exact ⟨h.1.trans (by decide), h.2.1.trans (by decide),
    h.2.2.1.trans (by decide), h.2.2.2⟩

/-- C9: a signup or unregister request that returns an error (404 or
400) leaves the store entirely unchanged: no activity row, participant
row or association is created, modified or removed. -/
theorem spec_C9 (s : Store) (A E : String) :
    (∀ st d, (signup_for_activity s A E).1 = Response.error st d →
      (signup_for_activity s A E).2 = s) ∧
    (∀ st d, (unregister_from_activity s A E).1 = Response.error st d →
      (unregister_from_activity s A E).2 = s) := by
  constructor <;> intro st d h
  · cases hA : findActivity s A with
    | none => rw [signup_not_found hA]
    | some act =>
      by_cases hc : E ∈ s.participants ∧ (A, E) ∈ s.assoc
      · rw [signup_conflict hA hc.1 hc.2]
      · rw [signup_success hA hc] at h
        simp at h
  · cases hA : findActivity s A with
    | none => rw [unregister_not_found hA]
    | some act =>
      by_cases hc : E ∈ s.participants ∧ (A, E) ∈ s.assoc
      · rw [unregister_success hA hc.1 hc.2] at h
        simp at h
      · rw [unregister_missing hA (not_and_or.mp hc)]

/-- Witness for C9: the failing signup and unregister on an unknown
activity leave the seeded store unchanged. -/
theorem spec_C9_witness :
    (signup_for_activity initStore "Nope" "x@mergington.edu").2 = initStore ∧
    (unregister_from_activity initStore "Nope" "x@mergington.edu").2 =
      initStore :=
  ⟨(spec_C9 initStore "Nope" "x@mergington.edu").1 404 "Activity not found"
      (by decide),
   (spec_C9 initStore "Nope" "x@mergington.edu").2 404 "Activity not found"
      (by decide)⟩

theorem StoreInv_init : StoreInv initStore := ⟨by decide, by decide⟩

theorem StoreInv_signup (s : Store) (A E : String) (h : StoreInv s) :
    StoreInv (signup_for_activity s A E).2 := by
  cases hA : findActivity s A with
  | none => rw [signup_not_found hA]; exact h
  | some act =>
    by_cases hc : E ∈ s.participants ∧ (A, E) ∈ s.assoc
    · rw [signup_conflict hA hc.1 hc.2]; exact h
    · rw [signup_success hA hc]
      constructor
      · have hnotin : (A, E) ∉ s.assoc := fun hmem =>
          hc ⟨h.2 (A, E) hmem, hmem⟩
        simp [List.nodup_append, h.1, hnotin]
      · intro p hp
        rcases List.mem_append.mp hp with hp | hp
        · have hmem := h.2 p hp
          by_cases hpE : E ∈ s.participants <;> simp [hpE, hmem]
        · have hpeq : p = (A, E) := by simpa using hp
          subst hpeq
          by_cases hpE : E ∈ s.participants <;> simp [hpE]

theorem StoreInv_unregister (s : Store) (A E : String) (h : StoreInv s) :
    StoreInv (unregister_from_activity s A E).2 := by
  cases hA : findActivity s A with
  | none => rw [unregister_not_found hA]; exact h
  | some act =>
    by_cases hc : E ∈ s.participants ∧ (A, E) ∈ s.assoc
    · rw [unregister_success hA hc.1 hc.2]
      refine ⟨h.1.filter _, ?_⟩
      intro p hp
      exact h.2 p (List.mem_filter.mp hp).1
    · rw [unregister_missing hA (not_and_or.mp hc)]; exact h

theorem StoreInv_applyRequest (s : Store) (r : Request) (h : StoreInv s) :
    StoreInv (applyRequest s r) := by
  cases r with
  | signup a e => exact StoreInv_signup s a e h
  | unregister a e => exact StoreInv_unregister s a e h

theorem StoreInv_runRequests (s : Store) (rs : List Request)
    (h : StoreInv s) : StoreInv (runRequests s rs) := by
  induction rs generalizing s with
  | nil => exact h
  | cons r rs ih => exact ih _ (StoreInv_applyRequest s r h)

/-- C8: in every store reachable from the seeded initial state by any
sequence of signup and unregister requests, each (activity,
participant) pair appears at most once in the association table. -/
theorem spec_C8 (s : Store) (h : Reachable s) : s.assoc.Nodup := by
  obtain ⟨rs, rfl⟩ := h
  exact (StoreInv_runRequests initStore rs StoreInv_init).1

/-- Witness for C8: after a signup and an unregister from the seeded
store, the association table still has no duplicate pair. -/
theorem spec_C8_witness :
    (runRequests initStore
      [Request.signup "Chess Club" "new@mergington.edu",
       Request.unregister "Chess Club" "michael@mergington.edu"]).assoc.Nodup :=
  spec_C8 _ ⟨_, rfl⟩

/-- C10: a successful signup or unregister for `(A, E)` changes nothing
beyond that association (and, for signup, possibly adding the
participant row for `E`): the activity rows are untouched, every other
email's participant-row membership is unchanged, and every other
(activity, email) pair's association is unchanged. -/
theorem spec_C10 (s : Store) (A E : String) :
    ((∃ m, (signup_for_activity s A E).1 = Response.ok m) →
      (signup_for_activity s A E).2.activities = s.activities ∧
      (∀ e, e ≠ E →
        (e ∈ (signup_for_activity s A E).2.participants ↔
          e ∈ s.participants)) ∧
      (∀ p : String × String, p ≠ (A, E) →
        (p ∈ (signup_for_activity s A E).2.assoc ↔ p ∈ s.assoc))) ∧
    ((∃ m, (unregister_from_activity s A E).1 = Response.ok m) →
      (unregister_from_activity s A E).2.activities = s.activities ∧
      (unregister_from_activity s A E).2.participants = s.participants ∧
      (∀ p : String × String, p ≠ (A, E) →
        (p ∈ (unregister_from_activity s A E).2.assoc ↔ p ∈ s.assoc))) := by
  constructor
  · rintro ⟨m, hm⟩
    cases hA : findActivity s A with
    | none =>
      rw [signup_not_found hA] at hm
      simp at hm
    | some act =>
      by_cases hc : E ∈ s.participants ∧ (A, E) ∈ s.assoc
      · rw [signup_conflict hA hc.1 hc.2] at hm
        simp at hm
      · rw [signup_success hA hc]
        refine ⟨rfl, ?_, ?_⟩
        · intro e he
          by_cases hp : E ∈ s.participants <;> simp [hp, he]
        · intro p hp
          simp [List.mem_append, hp]
  · rintro ⟨m, hm⟩
    cases hA : findActivity s A with
    | none =>
      rw [unregister_not_found hA] at hm
      simp at hm
    | some act =>
      by_cases hc : E ∈ s.participants ∧ (A, E) ∈ s.assoc
      · rw [unregister_success hA hc.1 hc.2]
        refine ⟨rfl, rfl, ?_⟩
        intro p hp
        simp [List.mem_filter, hp]
      · rw [unregister_missing hA (not_and_or.mp hc)] at hm
        simp at hm

/-- Witness for C10: signing `new@mergington.edu` up for "Chess Club"
and unregistering `michael@mergington.edu` from it both leave the
"Programming Class" and "Gym Class" associations untouched. -/
theorem spec_C10_witness :
    (("Programming Class", "emma@mergington.edu") ∈
        (signup_for_activity initStore "Chess Club"
          "new@mergington.edu").2.assoc ↔
      ("Programming Class", "emma@mergington.edu") ∈ initStore.assoc) ∧
    (("Gym Class", "john@mergington.edu") ∈
        (unregister_from_activity initStore "Chess Club"
          "michael@mergington.edu").2.assoc ↔
      ("Gym Class", "john@mergington.edu") ∈ initStore.assoc) :=
  ⟨((spec_C10 initStore "Chess Club" "new@mergington.edu").1
      ⟨"Signed up new@mergington.edu for Chess Club", by decide⟩).2.2
    ("Programming Class", "emma@mergington.edu") (by decide),
   ((spec_C10 initStore "Chess Club" "michael@mergington.edu").2
      ⟨"Unregistered michael@mergington.edu from Chess Club", by decide⟩).2.2
    ("Gym Class", "john@mergington.edu") (by decide)⟩
